import Mathlib

/-!
# Quizzo Challenge Session Engine — shallow embedding

A shallow embedding of the challenge subsystem of `src/app.py`
(`start_challenge`, `take_challenge`, `submit_challenge_answer`,
`calculate_challenge_points`) together with the ORM rows it reads and
writes (`Challenge`, `ChallengeQuestion`, `ChallengeSession`,
`ChallengeAnswer`).

Modelling conventions:
* Timestamps are absolute integers (seconds since an epoch, already
  normalised to UTC, which is what the source's tz-normalisation code
  establishes before subtracting).
* A Python `datetime` column that is nullable becomes `Option Int`.
* Python float arithmetic `round((c / t) * 100)` is modelled as exact
  round-half-to-even of the rational `100c/t` (`pyRoundDiv`), matching
  Python's banker's rounding `round` on the exact value.
* A Python exception escaping to the route's `except Exception` handler
  is modelled as an explicit result constructor; the answer validator,
  which `raises` on a text question whose `answer` key is NULL, returns
  `Option Bool` with `none` for the raising case.
* The submitted answer from the form is a `String`; Python's falsiness
  test `if answer:` covers both `None` and `""`, both modelled as `""`.
* Database rows live in lists inside a `DB` record; SQLAlchemy queries
  become list traversals.  Columns never read by the modelled operations
  are omitted from the row structures.
-/

namespace Quizzo

/-- The `Challenge` row: the columns read by the challenge engine.
`max_attempts` and `time_limit_minutes` use `Option Nat` so that both
SQL NULL and `0` are Python-falsy (`if challenge.max_attempts:`). -/
structure Challenge where
  id : Nat
  is_active : Bool
  max_attempts : Option Nat
  time_limit_minutes : Option Nat
deriving DecidableEq

/-- The `ChallengeQuestion` row: columns read by answer validation and the
question-serving loop. -/
structure ChallengeQuestion where
  id : Nat
  challenge_id : Nat
  question_type : String
  option_a : Option String
  option_b : Option String
  option_c : Option String
  option_d : Option String
  correct_option : Option String
  answer : Option String
  order_index : Nat
deriving DecidableEq

/-- The structured points breakdown produced by
`calculate_challenge_points` (a dict in the source). -/
structure PointsBreakdown where
  base_points : Nat
  correctness_bonus : Nat
  speed_bonus : Nat
  completion_bonus : Nat
  first_completion_bonus : Nat
  total : Nat
deriving DecidableEq

/-- The `ChallengeSession` row. `percentage` is stored by the source as the
integer result of Python `round`. -/
structure ChallengeSession where
  id : Nat
  student_id : Nat
  challenge_id : Nat
  start_time : Int
  end_time : Option Int
  status : String
  score : Nat
  percentage : Int
  points : Nat
  points_breakdown : Option PointsBreakdown
deriving DecidableEq

/-- The `ChallengeAnswer` row. -/
structure ChallengeAnswer where
  session_id : Nat
  question_id : Nat
  answer : String
  is_correct : Bool
  answered_at : Int
deriving DecidableEq

/-- The database state touched by the challenge engine. -/
structure DB where
  challenges : List Challenge
  questions : List ChallengeQuestion
  sessions : List ChallengeSession
  answers : List ChallengeAnswer
  nextSessionId : Nat
deriving DecidableEq

/-- Python truthiness of a nullable integer column: `None` and `0` are
falsy. -/
def optNatTruthy : Option Nat → Bool
  | none => false
  | some n => n ≠ 0

/-- Round-half-to-even of the exact rational `num / den` (`den > 0`),
i.e. Python `round(num / den)` on the exact value.  `f` is the floor and
`r` the nonnegative remainder. -/
def pyRoundDiv (num den : Int) : Int :=
  let f := num.fdiv den
  let r := num - f * den
  if 2 * r < den then f
  else if 2 * r > den then f + 1
  else if f % 2 = 0 then f else f + 1

/-! ## Queries (SQLAlchemy filters become list traversals) -/

def findChallenge (db : DB) (cid : Nat) : Option Challenge :=
  db.challenges.find? (fun c => c.id == cid)

def findSession (db : DB) (sid : Nat) : Option ChallengeSession :=
  db.sessions.find? (fun s => s.id == sid)

def findQuestion (db : DB) (qid : Nat) : Option ChallengeQuestion :=
  db.questions.find? (fun q => q.id == qid)

/-- Embeds `ChallengeQuestion.query.filter_by(challenge_id=...).count()`. -/
def questionCount (db : DB) (cid : Nat) : Nat :=
  (db.questions.filter (fun q => q.challenge_id == cid)).length

/-- Embeds `ChallengeSession.query.filter_by(challenge_id=..., student_id=...).count()`
— every status counts. -/
def attemptCount (db : DB) (student cid : Nat) : Nat :=
  (db.sessions.filter (fun s => s.challenge_id == cid && s.student_id == student)).length

/-- The `status='in_progress'` session lookup of `start_challenge`. -/
def findInProgress (db : DB) (student cid : Nat) : Option ChallengeSession :=
  db.sessions.find? (fun s =>
    s.challenge_id == cid && s.student_id == student && s.status == "in_progress")

/-- Insertion sort key `order_index` (the `ORDER BY order_index` of the
question query; ties have no specified order in SQL either). -/
def insertByOrder (q : ChallengeQuestion) : List ChallengeQuestion → List ChallengeQuestion
  | [] => [q]
  | x :: xs =>
    if q.order_index ≤ x.order_index then q :: x :: xs else x :: insertByOrder q xs

def sortByOrder : List ChallengeQuestion → List ChallengeQuestion
  | [] => []
  | x :: xs => insertByOrder x (sortByOrder xs)

/-- Embeds `ChallengeQuestion.query.filter_by(challenge_id=...).order_by(order_index).all()`. -/
def questionsFor (db : DB) (cid : Nat) : List ChallengeQuestion :=
  sortByOrder (db.questions.filter (fun q => q.challenge_id == cid))

/-- Embeds `ChallengeAnswer.query.filter_by(session_id=...).all()`. -/
def answersFor (db : DB) (sid : Nat) : List ChallengeAnswer :=
  db.answers.filter (fun a => a.session_id == sid)

/-- The duplicate-submission lookup of `submit_challenge_answer`. -/
def answerExists (db : DB) (sid qid : Nat) : Bool :=
  db.answers.any (fun a => a.session_id == sid && a.question_id == qid)

/-! ## Answer Validator (inline in `submit_challenge_answer`) -/

/-- Python `str.strip()` whitespace test (ASCII whitespace; the answers
compared here are ASCII form data). -/
def pyIsSpace (c : Char) : Bool :=
  c = ' ' || c = '\t' || c = '\n' || c = '\r' || c = '\x0b' || c = '\x0c'

/-- Python `str.strip()`: drop leading and trailing whitespace. -/
def pyStrip (s : String) : String :=
  ⟨((s.data.dropWhile pyIsSpace).reverse.dropWhile pyIsSpace).reverse⟩

/-- Python `str.lower()` (ASCII case mapping). -/
def pyLower (s : String) : String :=
  ⟨s.data.map Char.toLower⟩

/-- The `correct_option` letter dispatch of the multiple-choice branch. -/
def selectedOptionText (q : ChallengeQuestion) : Option String :=
  if q.correct_option = some "A" then q.option_a
  else if q.correct_option = some "B" then q.option_b
  else if q.correct_option = some "C" then q.option_c
  else if q.correct_option = some "D" then q.option_d
  else none

/-- The correctness computation of `submit_challenge_answer`:
`is_correct = False; if answer: ...`.  For multiple choice the source
compares `answer == correct_answer` (comparison with Python `None` is
`False`, never an error).  For every other `question_type` it evaluates
`answer.strip().lower() == question.answer.strip().lower()`, which
raises `AttributeError` when `question.answer` is NULL — modelled as
`none`. -/
def checkAnswer (q : ChallengeQuestion) (ans : String) : Option Bool :=
  if ans = "" then some false
  else if q.question_type = "multiple_choice" then
    some (match selectedOptionText q with
          | some c => ans = c
          | none => false)
  else
    match q.answer with
    | some c => some (pyLower (pyStrip ans) = pyLower (pyStrip c))
    | none => none

/-! ## Scoring Engine (`calculate_challenge_points`) -/

/-- The first-completion query inside `calculate_challenge_points`:
`ChallengeSession.query.filter(challenge_id == challenge.id,
status == 'completed', end_time < session_obj.end_time).first()`.
An SQL comparison against NULL matches nothing. -/
def priorCompletion (sessionTable : List ChallengeSession) (cid : Nat)
    (et : Option Int) : Bool :=
  sessionTable.any (fun t =>
    t.challenge_id == cid && t.status == "completed" &&
      (match t.end_time, et with
       | some e, some x => decide (e < x)
       | _, _ => false))

set_option linter.unusedVariables false in
/-- Embeds `calculate_challenge_points(session_obj, challenge, total_questions)`.
Beyond its three declared parameters the source reads the
`ChallengeSession` table (for the first-completion bonus); that read is
the explicit `sessionTable` argument.  `total_questions` is never read
by the body (as in the source).  Speed-ratio comparisons
`t/allowed ≤ 0.5 / 0.7 / 0.85` are cross-multiplied to exact integer
form. -/
def calculate_challenge_points (session_obj : ChallengeSession)
    (challenge : Challenge) (total_questions : Nat)
    (sessionTable : List ChallengeSession) : PointsBreakdown :=
  let base_points : Nat := 50
  let correctness_bonus : Nat := session_obj.score * 10
  let speed_bonus : Nat :=
    match challenge.time_limit_minutes, session_obj.end_time with
    | some tl, some et =>
      if tl = 0 then 0   -- Python falsiness of time_limit_minutes == 0
      else
        let time_taken : Int := et - session_obj.start_time
        let allowed : Int := (tl : Int) * 60
        if 2 * time_taken ≤ allowed then 100
        else if 10 * time_taken ≤ 7 * allowed then 50
        else if 20 * time_taken ≤ 17 * allowed then 25
        else 0
    | _, _ => 0
  let completion_bonus : Nat :=
    if session_obj.percentage ≥ 90 then 50
    else if session_obj.percentage ≥ 80 then 30
    else if session_obj.percentage ≥ 70 then 20
    else if session_obj.percentage ≥ 60 then 10
    else 0
  let first_completion_bonus : Nat :=
    if priorCompletion sessionTable challenge.id session_obj.end_time then 0 else 100
  { base_points := base_points
    correctness_bonus := correctness_bonus
    speed_bonus := speed_bonus
    completion_bonus := completion_bonus
    first_completion_bonus := first_completion_bonus
    total := base_points + correctness_bonus + speed_bonus +
             completion_bonus + first_completion_bonus }

/-! ## start (`start_challenge`) -/

inductive StartResult where
  | challengeMissing                   -- get_or_404
  | inactive                           -- "not currently available"
  | noQuestions                        -- "has no questions yet"
  | attemptLimit                       -- "maximum number of attempts"
  | resume (sid : Nat)                 -- redirect to the ongoing session
  | started (sid : Nat)                -- new session created
deriving DecidableEq

/-- Embeds `start_challenge(challenge_id)` for an authenticated student.
Check order as in the source: challenge lookup, `is_active`, question
count, attempt limit (all statuses), ongoing-session resume, create.
(The source also queries the student's completed session just before the
attempt check and never uses the result; that dead read is omitted.) -/
def startChallenge (db : DB) (student cid : Nat) (clock : Int) :
    StartResult × DB :=
  match findChallenge db cid with
  | none => (.challengeMissing, db)
  | some challenge =>
    if challenge.is_active = false then (.inactive, db)
    else if questionCount db cid = 0 then (.noQuestions, db)
    else if optNatTruthy challenge.max_attempts ∧
            attemptCount db student cid ≥ challenge.max_attempts.getD 0 then
      (.attemptLimit, db)
    else
      match findInProgress db student cid with
      | some ongoing => (.resume ongoing.id, db)
      | none =>
        let newSession : ChallengeSession :=
          { id := db.nextSessionId
            student_id := student
            challenge_id := cid
            start_time := clock
            end_time := none
            status := "in_progress"
            score := 0
            percentage := 0
            points := 0
            points_breakdown := none }
        (.started newSession.id,
         { db with sessions := db.sessions ++ [newSession]
                   nextSessionId := db.nextSessionId + 1 })

/-! ## submitAnswer (`submit_challenge_answer`) -/

inductive SubmitResult where
  | sessionMissing                     -- get_or_404 on the session
  | accessDenied                       -- other student's session
  | sessionCompleted                   -- redirect to results, no insert
  | emptyAnswer                        -- "Please select an answer."
  | questionMissing                    -- get_or_404 on the question
  | raised                             -- exception → generic error flash
  | alreadyAnswered                    -- "already been answered"
  | ok (is_correct : Bool)
deriving DecidableEq

/-- Embeds `submit_challenge_answer(session_id)` for an authenticated student.
Source order: session lookup, ownership, `status == 'completed'` check
(note: only `'completed'`), empty-answer check (skipped on
auto-submit), question lookup, correctness evaluation (which can raise),
duplicate-answer check, insert.  The stored answer text is
`answer or ''`. -/
def submitAnswer (db : DB) (uid sid qid : Nat) (ans : String)
    (is_auto_submit : Bool) (clock : Int) : SubmitResult × DB :=
  match findSession db sid with
  | none => (.sessionMissing, db)
  | some challenge_session =>
    if challenge_session.student_id ≠ uid then (.accessDenied, db)
    else if challenge_session.status = "completed" then (.sessionCompleted, db)
    else if ans = "" ∧ is_auto_submit = false then (.emptyAnswer, db)
    else
      match findQuestion db qid with
      | none => (.questionMissing, db)
      | some question =>
        match checkAnswer question ans with
        | none => (.raised, db)
        | some is_correct =>
          if answerExists db sid qid then (.alreadyAnswered, db)
          else
            (.ok is_correct,
             { db with answers := db.answers ++
                 [{ session_id := sid
                    question_id := qid
                    answer := ans
                    is_correct := is_correct
                    answered_at := clock }] })

/-! ## currentQuestion / tryComplete (`take_challenge`) -/

/-- The first question (in `order_index` order) with no answer in this
session; `none` is the completion sentinel. -/
def currentQuestion (db : DB) (s : ChallengeSession) : Option ChallengeQuestion :=
  let answered_ids := (answersFor db s.id).map (fun a => a.question_id)
  (questionsFor db s.challenge_id).find? (fun q => !(answered_ids.contains q.id))

inductive TakeResult where
  | sessionMissing                     -- get_or_404 on the session
  | accessDenied
  | showResults                        -- already completed → results page
  | challengeMissing                   -- get_or_404 on the challenge
  | noQuestions
  | showQuestion (qid : Nat)           -- serve the current question
  | completedNow                       -- completion transition taken
deriving DecidableEq

/-- Embeds `take_challenge(session_id)` for an authenticated student — the
engine's `tryComplete`/`currentQuestion` operation.  When every question
is answered it mutates the session (score, percentage, status,
end_time), then calls `calculate_challenge_points` — whose
first-completion query sees the autoflushed mutated row — and persists
the total and breakdown onto the session. -/
def tryComplete (db : DB) (uid sid : Nat) (clock : Int) : TakeResult × DB :=
  match findSession db sid with
  | none => (.sessionMissing, db)
  | some challenge_session =>
    if challenge_session.student_id ≠ uid then (.accessDenied, db)
    else if challenge_session.status = "completed" then (.showResults, db)
    else
      match findChallenge db challenge_session.challenge_id with
      | none => (.challengeMissing, db)
      | some challenge =>
        let questions := questionsFor db challenge_session.challenge_id
        if questions.isEmpty then (.noQuestions, db)
        else
          match currentQuestion db challenge_session with
          | some q => (.showQuestion q.id, db)
          | none =>
            let answered := answersFor db challenge_session.id
            let correct_answers := (answered.filter (fun a => a.is_correct)).length
            let pct := pyRoundDiv ((correct_answers : Int) * 100) (questions.length : Int)
            let sMid := { challenge_session with
                          score := correct_answers
                          percentage := pct
                          status := "completed"
                          end_time := some clock }
            let flushed := db.sessions.map
              (fun t => if t.id = challenge_session.id then sMid else t)
            let pb := calculate_challenge_points sMid challenge questions.length flushed
            let sFinal := { sMid with points := pb.total, points_breakdown := some pb }
            let persisted := db.sessions.map
              (fun t => if t.id = challenge_session.id then sFinal else t)
            (.completedNow, { db with sessions := persisted })

/-! ## Predicates used by the stated properties -/

/-- The no-double-answer invariant: no two `ChallengeAnswer` rows share a
`(session_id, question_id)` pair. -/
def answersUnique (db : DB) : Prop :=
  List.Pairwise
    (fun a b => ¬(a.session_id = b.session_id ∧ a.question_id = b.question_id))
    db.answers

/-! ## Concrete fixtures (used by witnesses and counterexamples) -/

/-- An active challenge, 10-minute time limit, 3 attempts. -/
def chA : Challenge :=
  { id := 1, is_active := true, max_attempts := some 3, time_limit_minutes := some 10 }

/-- An active challenge with a single allowed attempt and no time limit. -/
def chB : Challenge :=
  { id := 1, is_active := true, max_attempts := some 1, time_limit_minutes := none }

/-- An active challenge with two allowed attempts. -/
def chC : Challenge :=
  { id := 1, is_active := true, max_attempts := some 2, time_limit_minutes := none }

/-- An inactive challenge. -/
def chIna : Challenge :=
  { id := 2, is_active := false, max_attempts := some 1, time_limit_minutes := none }

/-- A multiple-choice question for challenge 1 whose correct option text
is `"yes"`. -/
def qMC : ChallengeQuestion :=
  { id := 11, challenge_id := 1, question_type := "multiple_choice",
    option_a := some "yes", option_b := some "no", option_c := none, option_d := none,
    correct_option := some "A", answer := none, order_index := 0 }

/-- A text question whose `answer` column is NULL. -/
def qTextNull : ChallengeQuestion :=
  { id := 12, challenge_id := 1, question_type := "text",
    option_a := none, option_b := none, option_c := none, option_d := none,
    correct_option := none, answer := none, order_index := 1 }

/-- An in-progress session of student 3 on challenge 1. -/
def sInProg : ChallengeSession :=
  { id := 5, student_id := 3, challenge_id := 1, start_time := 0, end_time := none,
    status := "in_progress", score := 0, percentage := 0, points := 0,
    points_breakdown := none }

/-- A completed session: 4 of 5 correct, 80 %, finished after 240 s. -/
def sScore4 : ChallengeSession :=
  { id := 6, student_id := 3, challenge_id := 1, start_time := 0, end_time := some 240,
    status := "completed", score := 4, percentage := 80, points := 0,
    points_breakdown := none }

/-- An abandoned session of student 3 on challenge 1. -/
def sAbandoned : ChallengeSession :=
  { id := 7, student_id := 3, challenge_id := 1, start_time := 0, end_time := none,
    status := "abandoned", score := 0, percentage := 0, points := 0,
    points_breakdown := none }

/-- Another student's completed session on challenge 1 that ended at 100 s. -/
def sPriorDone : ChallengeSession :=
  { id := 8, student_id := 4, challenge_id := 1, start_time := 0, end_time := some 100,
    status := "completed", score := 1, percentage := 100, points := 0,
    points_breakdown := none }

/-- A completed session of student 3 on the inactive challenge 2. -/
def sOldCh2 : ChallengeSession :=
  { id := 10, student_id := 3, challenge_id := 2, start_time := 0, end_time := some 60,
    status := "completed", score := 0, percentage := 0, points := 0,
    points_breakdown := none }

/-- The answer row of `sInProg` for `qMC`: correct. -/
def aYes : ChallengeAnswer :=
  { session_id := 5, question_id := 11, answer := "yes", is_correct := true,
    answered_at := 100 }

/-- A one-question challenge whose single in-progress session has
answered everything — ready to complete. -/
def dbOneQ : DB :=
  { challenges := [chA], questions := [qMC], sessions := [sInProg],
    answers := [aYes], nextSessionId := 20 }

/-- A database whose only session for (student 3, challenge 1) is
abandoned. -/
def dbAbandoned : DB :=
  { challenges := [chA], questions := [qMC], sessions := [sAbandoned],
    answers := [], nextSessionId := 21 }

/-- Challenge 1 allows one attempt and student 3 has an in-progress
session for it. -/
def dbLimited : DB :=
  { challenges := [chB], questions := [qMC], sessions := [sInProg],
    answers := [], nextSessionId := 22 }

/-- Challenge 1 allows two attempts; student 3 already has one completed
and one abandoned session. -/
def dbTwoAttempts : DB :=
  { challenges := [chC], questions := [qMC], sessions := [sScore4, sAbandoned],
    answers := [], nextSessionId := 23 }

/-- Challenge 2 is inactive, has no questions, and student 3 has already
used the single allowed attempt. -/
def dbInactive : DB :=
  { challenges := [chIna], questions := [], sessions := [sOldCh2],
    answers := [], nextSessionId := 24 }

/-- A database whose session 6 (student 3, challenge 1) is completed. -/
def dbDone : DB :=
  { challenges := [chA], questions := [qMC], sessions := [sScore4],
    answers := [], nextSessionId := 25 }

/-! ## Helper lemmas -/

/-- Finding by id in a list after replacing the found row by another row
with the same id yields the replacement. -/
theorem find?_id_map_replace (l : List ChallengeSession) (sid : Nat)
    (s s' : ChallengeSession)
    (hfind : l.find? (fun t => t.id == sid) = some s) (hid : s'.id = s.id) :
    (l.map (fun t => if t.id = s.id then s' else t)).find? (fun t => t.id == sid) =
      some s' := by
  have hsid : s.id = sid := by simpa using List.find?_some hfind
  induction l with
  | nil => simp at hfind
  | cons a l ih =>
    rw [List.map_cons]
    by_cases h : a.id = s.id
    · rw [if_pos h]
      have h1 : (s' :: List.map (fun t => if t.id = s.id then s' else t) l).find?
          (fun t => t.id == sid) = some s' :=
        List.find?_cons_of_pos _ (by simp [hid, hsid])
      exact h1
    · rw [if_neg h]
      have hpa : ¬((a.id == sid) = true) := by
        simp only [beq_iff_eq]
        intro hc
        exact h (hc.trans hsid.symm)
      have h1 : (a :: List.map (fun t => if t.id = s.id then s' else t) l).find?
          (fun t => t.id == sid) =
          (List.map (fun t => if t.id = s.id then s' else t) l).find?
          (fun t => t.id == sid) := List.find?_cons_of_neg _ hpa
      have h2 : (a :: l).find? (fun t => t.id == sid) = l.find? (fun t => t.id == sid) :=
        List.find?_cons_of_neg _ hpa
      rw [h1]
      rw [h2] at hfind
      exact ih hfind

/-- The first-completion query reads only `challenge_id`, `status` and
`end_time`, so replacing a row by one that agrees on those fields does
not change its outcome. -/
theorem priorCompletion_replace_congr (l : List ChallengeSession) (i : Nat)
    (s1 s2 : ChallengeSession) (cid : Nat) (et : Option Int)
    (hc : s1.challenge_id = s2.challenge_id) (hst : s1.status = s2.status)
    (he : s1.end_time = s2.end_time) :
    priorCompletion (l.map (fun t => if t.id = i then s1 else t)) cid et =
    priorCompletion (l.map (fun t => if t.id = i then s2 else t)) cid et := by
  unfold priorCompletion
  rw [List.any_map, List.any_map]
  congr 1
  funext t
  by_cases h : t.id = i <;> simp [h, hc, hst, he]

/-- The scoring engine never reads the `points` / `points_breakdown`
fields of the session it scores (nor of the table rows). -/
theorem calc_points_ignores_points_fields (sMid : ChallengeSession) (ch : Challenge)
    (n : Nat) (l : List ChallengeSession) (i : Nat) (pb : PointsBreakdown) :
    calculate_challenge_points sMid ch n (l.map (fun t => if t.id = i then sMid else t)) =
    calculate_challenge_points
      { sMid with points := pb.total, points_breakdown := some pb } ch n
      (l.map (fun t => if t.id = i then
        { sMid with points := pb.total, points_breakdown := some pb } else t)) := by
  unfold calculate_challenge_points
  rw [priorCompletion_replace_congr l i sMid
    { sMid with points := pb.total, points_breakdown := some pb } ch.id
    sMid.end_time rfl rfl rfl]

/-- Answer submission never touches the session table. -/
theorem submitAnswer_sessions_const (db : DB) (uid sid qid : Nat) (ans : String)
    (auto : Bool) (clock : Int) :
    ((submitAnswer db uid sid qid ans auto clock).2).sessions = db.sessions := by
  unfold submitAnswer
  repeat' split
  all_goals rfl

/-- The completion branch of `take_challenge`, as one equation: when the
session is live, owned by the caller, the challenge exists with at least
one question, and no unanswered question remains, the call completes the
session and persists score, percentage, status, end time, points and
breakdown. -/
theorem tryComplete_completes_eq (db : DB) (uid sid : Nat) (clock : Int)
    (s : ChallengeSession) (ch : Challenge)
    (hs : findSession db sid = some s)
    (huid : s.student_id = uid)
    (hstat' : ¬(s.status = "completed"))
    (hch : findChallenge db s.challenge_id = some ch)
    (hq : (questionsFor db s.challenge_id).isEmpty = false)
    (hcur : currentQuestion db s = none) :
    tryComplete db uid sid clock = (.completedNow,
      { db with sessions := db.sessions.map (fun t => if t.id = s.id then
          (let correct := ((answersFor db s.id).filter (fun a => a.is_correct)).length
           let total := (questionsFor db s.challenge_id).length
           let sMid : ChallengeSession :=
             { s with
                 score := correct
                 percentage := pyRoundDiv ((correct : Int) * 100) (total : Int)
                 status := "completed"
                 end_time := some clock }
           let flushed := db.sessions.map (fun t => if t.id = s.id then sMid else t)
           let pb := calculate_challenge_points sMid ch total flushed
           { sMid with
               points := pb.total
               points_breakdown := some pb })
          else t) }) := by
  unfold tryComplete
  rw [hs]
  simp only [huid, ne_eq, not_true_eq_false, if_false, hstat', ite_false, hch,
    Bool.not_eq_true, hq, hcur]
  rfl

/-- A `take_challenge` call on a completed session owned by the caller
redirects to the results page and leaves the database untouched. -/
theorem tryComplete_completed_noop (db : DB) (uid sid : Nat) (clock : Int)
    (s : ChallengeSession) (hs : findSession db sid = some s)
    (huid : s.student_id = uid) (hc : s.status = "completed") :
    tryComplete db uid sid clock = (.showResults, db) := by
  simp [tryComplete, hs, huid, hc]

/-! ## Claim theorems -/

/-- Claim C1: at most one `ChallengeAnswer` row ever exists per
`(session, question)` pair — `submitAnswer` preserves the uniqueness
invariant, and when an answer for the pair already exists it changes
nothing (so the stored text and `is_correct` flag stay intact) and, on
the path where the duplicate check is what fires, reports
`alreadyAnswered`. -/
theorem submitAnswer_no_double (db : DB) (uid sid qid : Nat) (ans : String)
    (auto : Bool) (clock : Int) :
    (answersUnique db → answersUnique (submitAnswer db uid sid qid ans auto clock).2) ∧
    (answerExists db sid qid = true →
      (submitAnswer db uid sid qid ans auto clock).2 = db ∧
      (∀ s, findSession db sid = some s → s.student_id = uid →
        s.status ≠ "completed" → ¬(ans = "" ∧ auto = false) →
        ∀ q, findQuestion db qid = some q → checkAnswer q ans ≠ none →
        (submitAnswer db uid sid qid ans auto clock).1 = .alreadyAnswered)) := by
  constructor
  · intro hu
    unfold submitAnswer
    split
    · exact hu
    · rename_i s hs
      split
      · exact hu
      · split
        · exact hu
        · split
          · exact hu
          · split
            · exact hu
            · rename_i q hq
              split
              · exact hu
              · rename_i b hb
                split
                · exact hu
                · rename_i hex
                  unfold answersUnique at *
                  refine List.pairwise_append.mpr ⟨hu, List.pairwise_singleton _ _, ?_⟩
                  intro a ha x hx hcontra
                  simp only [List.mem_singleton] at hx
                  subst hx
                  apply hex
                  unfold answerExists
                  rw [List.any_eq_true]
                  refine ⟨a, ha, ?_⟩
                  simp [hcontra.1, hcontra.2]
  · intro hex
    constructor
    · unfold submitAnswer
      repeat' split
      all_goals rfl
    · intro s hs huid hc hne q hq hb
      obtain ⟨b, hbb⟩ := Option.ne_none_iff_exists'.mp hb
      simp [submitAnswer, hs, huid, hc, hne, hq, hbb, hex]

/-- Claim C1 witness: in `dbOneQ`, session 5 already answered question
11, and a second submission changes nothing and is rejected as already
answered. -/
theorem submitAnswer_no_double_witness :
    (submitAnswer dbOneQ 3 5 11 "no" false 60).2 = dbOneQ ∧
    (submitAnswer dbOneQ 3 5 11 "no" false 60).1 = .alreadyAnswered := by
  have h := (submitAnswer_no_double dbOneQ 3 5 11 "no" false 60).2 (by decide)
  exact ⟨h.1, h.2 sInProg (by decide) (by decide) (by decide) (by decide)
    qMC (by decide) (by decide)⟩

/-- Claim C2: completion is idempotent — once a `take_challenge` call
returned `completedNow` (or the session was already completed), any
later call is a pure no-op that redirects to the existing results and
leaves the whole database (hence score, percentage and points)
unchanged; points are awarded at most once. -/
theorem tryComplete_idempotent (db : DB) (uid sid : Nat) (clock clock' : Int)
    (h : (tryComplete db uid sid clock).1 = .completedNow ∨
         (tryComplete db uid sid clock).1 = .showResults) :
    tryComplete (tryComplete db uid sid clock).2 uid sid clock' =
      (.showResults, (tryComplete db uid sid clock).2) := by
  cases hfs : findSession db sid with
  | none =>
    have e : tryComplete db uid sid clock = (.sessionMissing, db) := by
      simp [tryComplete, hfs]
    rw [e] at h
    simp at h
  | some s =>
    by_cases h1 : s.student_id = uid
    case neg =>
      have e : tryComplete db uid sid clock = (.accessDenied, db) := by
        simp [tryComplete, hfs, h1]
      rw [e] at h
      simp at h
    case pos =>
    by_cases h2 : s.status = "completed"
    case pos =>
      have e := tryComplete_completed_noop db uid sid clock s hfs h1 h2
      rw [e]
      exact tryComplete_completed_noop db uid sid clock' s hfs h1 h2
    case neg =>
    cases hfc : findChallenge db s.challenge_id with
    | none =>
      have e : tryComplete db uid sid clock = (.challengeMissing, db) := by
        simp [tryComplete, hfs, h1, h2, hfc]
      rw [e] at h
      simp at h
    | some ch =>
    by_cases h3 : (questionsFor db s.challenge_id).isEmpty
    case pos =>
      have e : tryComplete db uid sid clock = (.noQuestions, db) := by
        simp [tryComplete, hfs, h1, h2, hfc, h3]
      rw [e] at h
      simp at h
    case neg =>
    cases hcq : currentQuestion db s with
    | some q =>
      have e : tryComplete db uid sid clock = (.showQuestion q.id, db) := by
        simp [tryComplete, hfs, h1, h2, hfc, h3, hcq]
      rw [e] at h
      simp at h
    | none =>
      have hq' : (questionsFor db s.challenge_id).isEmpty = false := by
        simpa using h3
      have hred := tryComplete_completes_eq db uid sid clock s ch hfs h1 h2 hfc hq' hcq
      have hs' : db.sessions.find? (fun t => t.id == sid) = some s := hfs
      let correctE := ((answersFor db s.id).filter (fun a => a.is_correct)).length
      let totalE := (questionsFor db s.challenge_id).length
      let sMidE : ChallengeSession :=
        { s with
            score := correctE
            percentage := pyRoundDiv ((correctE : Int) * 100) (totalE : Int)
            status := "completed"
            end_time := some clock }
      let pbE := calculate_challenge_points sMidE ch totalE
        (db.sessions.map (fun t => if t.id = s.id then sMidE else t))
      let sFinE : ChallengeSession :=
        { sMidE with points := pbE.total, points_breakdown := some pbE }
      rw [hred]
      exact tryComplete_completed_noop _ uid sid clock' sFinE
        (find?_id_map_replace db.sessions sid s sFinE hs' rfl) h1 rfl

/-- Claim C2 witness: completing the ready session of `dbOneQ` and then
calling again returns the stored results and changes nothing. -/
theorem tryComplete_idempotent_witness :
    tryComplete (tryComplete dbOneQ 3 5 240).2 3 5 300 =
      (.showResults, (tryComplete dbOneQ 3 5 240).2) :=
  tryComplete_idempotent dbOneQ 3 5 240 300 (Or.inl (by decide))

/-- Claim C3: for a completed session with 4/5 correct, a 10-minute
limit, 240 s elapsed, percentage 80 and no earlier completed session of
the challenge, the scoring engine returns base 50, correctness 40,
speed 100, completion-tier 30, first-completion 100, total 320. -/
theorem scoring_concrete_320 :
    calculate_challenge_points sScore4 chA 5 [sScore4] =
      { base_points := 50, correctness_bonus := 40, speed_bonus := 100,
        completion_bonus := 30, first_completion_bonus := 100, total := 320 } := by
  decide

/-- Claim C4: for an in-progress owned session whose challenge exists,
has questions, and has no unanswered question left, `take_challenge`
completes the session: score is the count of correct answers, percentage
is the rounded score ratio, status becomes completed, the end time is
the clock value, and the scoring engine's breakdown and total are
persisted onto the session; and `submitAnswer` itself never changes any
session row (in particular no status). -/
theorem completion_transition (db : DB) (uid sid : Nat) (clock : Int)
    (s : ChallengeSession) (ch : Challenge)
    (hs : findSession db sid = some s)
    (huid : s.student_id = uid)
    (hstat : s.status = "in_progress")
    (hch : findChallenge db s.challenge_id = some ch)
    (hq : (questionsFor db s.challenge_id).isEmpty = false)
    (hcur : currentQuestion db s = none) :
    ((tryComplete db uid sid clock).1 = .completedNow ∧
     (∃ s', findSession (tryComplete db uid sid clock).2 sid = some s' ∧
       s'.score = ((answersFor db s.id).filter (fun a => a.is_correct)).length ∧
       s'.percentage = pyRoundDiv ((s'.score : Int) * 100)
         ((questionsFor db s.challenge_id).length : Int) ∧
       s'.status = "completed" ∧ s'.end_time = some clock ∧
       s'.points_breakdown = some (calculate_challenge_points s' ch
         (questionsFor db s.challenge_id).length
         (tryComplete db uid sid clock).2.sessions) ∧
       s'.points = (calculate_challenge_points s' ch
         (questionsFor db s.challenge_id).length
         (tryComplete db uid sid clock).2.sessions).total)) ∧
    ∀ (db' : DB) (uid' sid' qid' : Nat) (ans' : String) (auto' : Bool) (clk' : Int),
      ((submitAnswer db' uid' sid' qid' ans' auto' clk').2).sessions = db'.sessions := by
  have hstat' : ¬(s.status = "completed") := by rw [hstat]; decide
  have hred := tryComplete_completes_eq db uid sid clock s ch hs huid hstat' hch hq hcur
  have hs' : db.sessions.find? (fun t => t.id == sid) = some s := hs
  let correctE := ((answersFor db s.id).filter (fun a => a.is_correct)).length
  let totalE := (questionsFor db s.challenge_id).length
  let sMidE : ChallengeSession :=
    { s with
        score := correctE
        percentage := pyRoundDiv ((correctE : Int) * 100) (totalE : Int)
        status := "completed"
        end_time := some clock }
  let pbE := calculate_challenge_points sMidE ch totalE
    (db.sessions.map (fun t => if t.id = s.id then sMidE else t))
  let sFinE : ChallengeSession :=
    { sMidE with points := pbE.total, points_breakdown := some pbE }
  refine ⟨⟨by rw [hred], ?_⟩, fun db' uid' sid' qid' ans' auto' clk' =>
    submitAnswer_sessions_const db' uid' sid' qid' ans' auto' clk'⟩
  rw [hred]
  refine ⟨sFinE, find?_id_map_replace db.sessions sid s sFinE hs' rfl, rfl, rfl, rfl, rfl,
    ?_, ?_⟩
  · exact congrArg some
      (calc_points_ignores_points_fields sMidE ch totalE db.sessions s.id pbE)
  · exact congrArg PointsBreakdown.total
      (calc_points_ignores_points_fields sMidE ch totalE db.sessions s.id pbE)

/-- Claim C4 witness: the ready one-question session of `dbOneQ`
completes at clock 240 with all the stated field updates. -/
theorem completion_transition_witness :
    ((tryComplete dbOneQ 3 5 240).1 = .completedNow ∧
     (∃ s', findSession (tryComplete dbOneQ 3 5 240).2 5 = some s' ∧
       s'.score = ((answersFor dbOneQ sInProg.id).filter (fun a => a.is_correct)).length ∧
       s'.percentage = pyRoundDiv ((s'.score : Int) * 100)
         ((questionsFor dbOneQ sInProg.challenge_id).length : Int) ∧
       s'.status = "completed" ∧ s'.end_time = some 240 ∧
       s'.points_breakdown = some (calculate_challenge_points s' chA
         (questionsFor dbOneQ sInProg.challenge_id).length
         (tryComplete dbOneQ 3 5 240).2.sessions) ∧
       s'.points = (calculate_challenge_points s' chA
         (questionsFor dbOneQ sInProg.challenge_id).length
         (tryComplete dbOneQ 3 5 240).2.sessions).total)) ∧
    ∀ (db' : DB) (uid' sid' qid' : Nat) (ans' : String) (auto' : Bool) (clk' : Int),
      ((submitAnswer db' uid' sid' qid' ans' auto' clk').2).sessions = db'.sessions :=
  completion_transition dbOneQ 3 5 240 sInProg chA (by decide) (by decide) (by decide)
    (by decide) (by decide) (by decide)

/-- Claim C5 counterexample: the status guard of
`submit_challenge_answer` checks only `'completed'`, so an abandoned
session still accepts and stores an answer — terminal states are not
uniformly sticky as claimed. -/
theorem submitAnswer_abandoned_accepts :
    (findSession dbAbandoned 7).map (fun s => s.status) = some "abandoned" ∧
    (submitAnswer dbAbandoned 3 7 11 "yes" false 50).1 = .ok true ∧
    ((submitAnswer dbAbandoned 3 7 11 "yes" false 50).2).answers.length =
      dbAbandoned.answers.length + 1 := by
  decide

/-- Claim C5 (amended): `submitAnswer` rejects with the
redirect-to-results outcome, inserting nothing, exactly when the
session's status is `'completed'`; abandoned sessions are not caught by
this guard. -/
theorem submitAnswer_rejects_only_completed (db : DB) (uid sid qid : Nat)
    (ans : String) (auto : Bool) (clock : Int) (s : ChallengeSession)
    (hs : findSession db sid = some s) (huid : s.student_id = uid)
    (hc : s.status = "completed") :
    submitAnswer db uid sid qid ans auto clock = (.sessionCompleted, db) := by
  simp [submitAnswer, hs, huid, hc]

/-- Claim C5 witness: submitting to the completed session 6 of `dbDone`
is rejected and inserts nothing. -/
theorem submitAnswer_rejects_only_completed_witness :
    submitAnswer dbDone 3 6 11 "yes" false 50 = (.sessionCompleted, dbDone) :=
  submitAnswer_rejects_only_completed dbDone 3 6 11 "yes" false 50 sScore4
    (by decide) (by decide) (by decide)

/-- Claim C6 counterexample: in `dbLimited` student 3 has an in-progress
session for challenge 1, yet `start_challenge` answers with the
attempt-limit error instead of resuming, because the attempt counter
(which counts the in-progress session itself) is checked first. -/
theorem start_resume_blocked_by_limit :
    findInProgress dbLimited 3 1 = some sInProg ∧
    (startChallenge dbLimited 3 1 0).1 = .attemptLimit ∧
    (startChallenge dbLimited 3 1 0).1 ≠ .resume sInProg.id := by
  decide

/-- Claim C6 (amended): an existing in-progress session is resumed — no
new session is created — provided the challenge is active, has
questions, and the attempt limit (whose count includes the in-progress
session itself) is not yet reached; otherwise the earlier checks win. -/
theorem start_resume_when_under_limit (db : DB) (student cid : Nat) (clock : Int)
    (ch : Challenge) (t : ChallengeSession)
    (hch : findChallenge db cid = some ch)
    (hact : ch.is_active = true)
    (hq : questionCount db cid ≠ 0)
    (hlim : ¬(optNatTruthy ch.max_attempts = true ∧
              attemptCount db student cid ≥ ch.max_attempts.getD 0))
    (hip : findInProgress db student cid = some t) :
    startChallenge db student cid clock = (.resume t.id, db) := by
  simp [startChallenge, hch, hact, hq, hlim, hip]

/-- Claim C6 witness: in `dbOneQ` (limit 3, one session) the in-progress
session 5 is resumed and the database is unchanged. -/
theorem start_resume_when_under_limit_witness :
    startChallenge dbOneQ 3 1 0 = (.resume 5, dbOneQ) :=
  start_resume_when_under_limit dbOneQ 3 1 0 chA sInProg (by decide) (by decide)
    (by decide) (by decide) (by decide)

/-- Claim C7: when `max_attempts` is set (truthy) and the count of all
sessions of the student for the challenge — any status — has reached it,
`start_challenge` never changes the database (creates no session), and
on an active challenge with questions it reports the attempt-limit
error. -/
theorem start_attempt_limit (db : DB) (student cid : Nat) (clock : Int)
    (ch : Challenge) (hch : findChallenge db cid = some ch)
    (hmax : optNatTruthy ch.max_attempts = true)
    (hcount : attemptCount db student cid ≥ ch.max_attempts.getD 0) :
    (startChallenge db student cid clock).2 = db ∧
    (ch.is_active = true → questionCount db cid ≠ 0 →
      (startChallenge db student cid clock).1 = .attemptLimit) := by
  unfold startChallenge
  rw [hch]
  by_cases ha : ch.is_active = false
  · simp [ha]
  · simp only [ha, if_false]
    by_cases hq : questionCount db cid = 0
    · simp [hq]
    · simp [hq, hmax, hcount]

/-- Claim C7 witness: with `max_attempts` 2 and one completed plus one
abandoned session, a third start call fails with the attempt-limit
error and creates nothing. -/
theorem start_attempt_limit_witness :
    (startChallenge dbTwoAttempts 3 1 0).2 = dbTwoAttempts ∧
    (startChallenge dbTwoAttempts 3 1 0).1 = .attemptLimit := by
  have h := start_attempt_limit dbTwoAttempts 3 1 0 chC (by decide) (by decide) (by decide)
  exact ⟨h.1, h.2 (by decide) (by decide)⟩

/-- Claim C8 counterexample: on a text question whose `answer` key is
NULL, a non-empty submission makes the validator raise
(`correct_answer.strip()` on `None`), modelled as `none` — it does not
return a boolean. -/
theorem checkAnswer_raises_on_null_key :
    qTextNull.question_type ≠ "multiple_choice" ∧ qTextNull.answer = none ∧
    checkAnswer qTextNull "yes" = none := by
  decide

/-- Claim C8 (amended): the validator returns `some false` on an empty
submission; on a multiple-choice question it returns a boolean that is
true exactly when the non-empty submission equals, case-sensitively, the
option text selected by `correct_option` (false when that selector is
not A–D); on a text question whose `answer` key is present it returns
the trimmed, lowercased comparison.  Only a text question with a NULL
key and non-empty submission escapes with an exception. -/
theorem checkAnswer_behaviour (q : ChallengeQuestion) (ans : String) :
    (ans = "" → checkAnswer q ans = some false) ∧
    (q.question_type = "multiple_choice" →
      ∃ b, checkAnswer q ans = some b ∧
        (b = true ↔ ans ≠ "" ∧ selectedOptionText q = some ans)) ∧
    (q.question_type ≠ "multiple_choice" → ans ≠ "" →
      ∀ c, q.answer = some c →
        ∃ b, checkAnswer q ans = some b ∧
          (b = true ↔ pyLower (pyStrip ans) = pyLower (pyStrip c))) := by
  refine ⟨fun he => by simp [checkAnswer, he], fun hmc => ?_, fun hnmc hne c hc => ?_⟩
  · by_cases he : ans = ""
    · exact ⟨false, by simp [checkAnswer, he], by simp [he]⟩
    · cases hsel : selectedOptionText q with
      | none =>
        refine ⟨false, by simp [checkAnswer, he, hmc, hsel], by simp [hsel]⟩
      | some c =>
        refine ⟨decide (ans = c), by simp [checkAnswer, he, hmc, hsel], ?_⟩
        simp [he, hsel]
        constructor
        · intro h; exact h.symm
        · intro h; exact h.symm
  · refine ⟨decide (pyLower (pyStrip ans) = pyLower (pyStrip c)),
      by simp [checkAnswer, hne, hnmc, hc], by simp⟩

/-- Claim C8 witness: an empty submission is simply incorrect, even on a
question with a NULL answer key. -/
theorem checkAnswer_behaviour_witness :
    checkAnswer qTextNull "" = some false :=
  (checkAnswer_behaviour qTextNull "").1 rfl

/-- Claim C9 counterexample: with identical `(session, challenge,
total_questions)` the scoring engine returns different breakdowns for
different session tables — the first-completion bonus reads state beyond
the three declared inputs. -/
theorem scoring_depends_on_store :
    calculate_challenge_points sScore4 chA 5 [sScore4] ≠
      calculate_challenge_points sScore4 chA 5 [sScore4, sPriorDone] := by
  decide

/-- Claim C9 (amended): the scoring engine is deterministic in
`(session, challenge, total_questions)` *and* the session table, and
depends on the table only through the prior-completion query — two
tables on which that query agrees yield identical breakdowns. -/
theorem scoring_determined_by_store (s : ChallengeSession) (ch : Challenge)
    (n : Nat) (t1 t2 : List ChallengeSession)
    (h : priorCompletion t1 ch.id s.end_time = priorCompletion t2 ch.id s.end_time) :
    calculate_challenge_points s ch n t1 = calculate_challenge_points s ch n t2 := by
  unfold calculate_challenge_points
  rw [h]

/-- Claim C9 witness: the empty table and a table holding only an
in-progress session agree on the prior-completion query, hence on the
breakdown. -/
theorem scoring_determined_by_store_witness :
    calculate_challenge_points sScore4 chA 5 [] =
      calculate_challenge_points sScore4 chA 5 [sInProg] :=
  scoring_determined_by_store sScore4 chA 5 [] [sInProg] (by decide)

/-- Claim C10: starting an inactive challenge is rejected before any
other check — the result is the not-currently-available error and the
database is unchanged, whatever the question count or attempt
history. -/
theorem start_inactive_rejected (db : DB) (student cid : Nat) (clock : Int)
    (ch : Challenge) (hch : findChallenge db cid = some ch)
    (h : ch.is_active = false) :
    startChallenge db student cid clock = (.inactive, db) := by
  simp [startChallenge, hch, h]

/-- Claim C10 witness: challenge 2 of `dbInactive` is inactive, has zero
questions and an exhausted attempt budget, and the reported error is the
inactive one. -/
theorem start_inactive_rejected_witness :
    startChallenge dbInactive 3 2 0 = (.inactive, dbInactive) :=
  start_inactive_rejected dbInactive 3 2 0 chIna (by decide) (by decide)

end Quizzo
